import Mathlib

/-!
Shallow embedding of the posture-analysis engine in
`src/services/tensorflowPoseService.ts` (class `TensorFlowPoseService`),
together with theorems checking the specification's statements about it.

JavaScript numbers are modelled as exact rationals for landmark data,
visibilities and thresholds, and as reals for the trigonometric posture
metrics and the scores built from them; consistency counters are naturals;
fallible steps (field access on a possibly-undefined value) return `Option`.
-/

namespace PoseService

/-- The 17 MoveNet joints of a landmark frame (interface `PoseLandmarks`). -/
inductive Joint
  | nose
  | leftEye
  | rightEye
  | leftEar
  | rightEar
  | leftShoulder
  | rightShoulder
  | leftElbow
  | rightElbow
  | leftWrist
  | rightWrist
  | leftHip
  | rightHip
  | leftKnee
  | rightKnee
  | leftAnkle
  | rightAnkle
  deriving DecidableEq

/-- One landmark: `{x, y, z, visibility}`. -/
structure Landmark where
  x : ℚ
  y : ℚ
  z : ℚ
  visibility : ℚ
  deriving DecidableEq

/-- A full landmark frame: one `Landmark` per joint. -/
abbrev PoseLandmarks := Joint → Landmark

/-- A raw detector keypoint `{x, y, score}`. -/
structure Keypoint where
  x : ℚ
  y : ℚ
  score : ℚ
  deriving DecidableEq

/-- The `keypointMap` literal of `extractLandmarks`: MoveNet keypoint indices. -/
def keypointMap : Joint → Nat
  | .nose => 0
  | .leftEye => 1
  | .rightEye => 2
  | .leftEar => 3
  | .rightEar => 4
  | .leftShoulder => 5
  | .rightShoulder => 6
  | .leftElbow => 7
  | .rightElbow => 8
  | .leftWrist => 9
  | .rightWrist => 10
  | .leftHip => 11
  | .rightHip => 12
  | .leftKnee => 13
  | .rightKnee => 14
  | .leftAnkle => 15
  | .rightAnkle => 16

/-- `getKeypoint` inside `extractLandmarks`: reading `keypoints[index].x` throws
in JavaScript when the index is out of range, so it is `none` here; `z` is
fixed to 0 (MoveNet provides no z) and `visibility` is the keypoint score. -/
def getKeypoint (keypoints : List Keypoint) (index : Nat) : Option Landmark :=
  (keypoints.get? index).map fun kp => ⟨kp.x, kp.y, 0, kp.score⟩

/-- `extractLandmarks`: builds the 17-joint frame from the raw keypoint list,
failing (as the JavaScript throws) when a keypoint is missing. -/
def extractLandmarks (keypoints : List Keypoint) : Option PoseLandmarks := do
  let nose ← getKeypoint keypoints (keypointMap .nose)
  let leftEye ← getKeypoint keypoints (keypointMap .leftEye)
  let rightEye ← getKeypoint keypoints (keypointMap .rightEye)
  let leftEar ← getKeypoint keypoints (keypointMap .leftEar)
  let rightEar ← getKeypoint keypoints (keypointMap .rightEar)
  let leftShoulder ← getKeypoint keypoints (keypointMap .leftShoulder)
  let rightShoulder ← getKeypoint keypoints (keypointMap .rightShoulder)
  let leftElbow ← getKeypoint keypoints (keypointMap .leftElbow)
  let rightElbow ← getKeypoint keypoints (keypointMap .rightElbow)
  let leftWrist ← getKeypoint keypoints (keypointMap .leftWrist)
  let rightWrist ← getKeypoint keypoints (keypointMap .rightWrist)
  let leftHip ← getKeypoint keypoints (keypointMap .leftHip)
  let rightHip ← getKeypoint keypoints (keypointMap .rightHip)
  let leftKnee ← getKeypoint keypoints (keypointMap .leftKnee)
  let rightKnee ← getKeypoint keypoints (keypointMap .rightKnee)
  let leftAnkle ← getKeypoint keypoints (keypointMap .leftAnkle)
  let rightAnkle ← getKeypoint keypoints (keypointMap .rightAnkle)
  pure fun j => match j with
    | .nose => nose
    | .leftEye => leftEye
    | .rightEye => rightEye
    | .leftEar => leftEar
    | .rightEar => rightEar
    | .leftShoulder => leftShoulder
    | .rightShoulder => rightShoulder
    | .leftElbow => leftElbow
    | .rightElbow => rightElbow
    | .leftWrist => leftWrist
    | .rightWrist => rightWrist
    | .leftHip => leftHip
    | .rightHip => rightHip
    | .leftKnee => leftKnee
    | .rightKnee => rightKnee
    | .leftAnkle => leftAnkle
    | .rightAnkle => rightAnkle

/-- `averageLandmark`: the mean of one joint's positions over the window
entries with visibility above 0.1; with no such entry, the JavaScript
`landmarks[0] || {x:0,y:0,z:0,visibility:0}` falls back to the first entry of
the window, or to an all-zero landmark when the window is empty. -/
def averageLandmark (landmarks : List Landmark) : Landmark :=
  let validLandmarks := landmarks.filter fun l => 1/10 < l.visibility
  if validLandmarks.isEmpty then
    landmarks.headD ⟨0, 0, 0, 0⟩
  else
    { x := (validLandmarks.map (·.x)).sum / validLandmarks.length
      y := (validLandmarks.map (·.y)).sum / validLandmarks.length
      z := (validLandmarks.map (·.z)).sum / validLandmarks.length
      visibility := (validLandmarks.map (·.visibility)).sum / validLandmarks.length }

/-- `smoothLandmarks`: with an empty window the JavaScript evaluates
`this.landmarkHistory[0] || this.extractLandmarks([])`, and
`extractLandmarks([])` throws on the first keypoint access (`none` here); with
one entry it returns that most recent entry; otherwise it averages each joint
over the window with `averageLandmark`. -/
def smoothLandmarks (landmarkHistory : List PoseLandmarks) : Option PoseLandmarks :=
  match landmarkHistory with
  | [] => extractLandmarks []
  | [l] => some l
  | l₁ :: l₂ :: rest =>
    some fun j => averageLandmark ((l₁ :: l₂ :: rest).map fun l => l j)

/-- The issue keys of `potentialIssues` / `issueConsistency`, in the order the
per-frame analysis inserts them. -/
inductive IssueKey
  | forward_head
  | slight_forward_head
  | uneven_shoulders
  | slight_shoulder_imbalance
  | head_tilt
  | slight_head_tilt
  | shoulder_height_imbalance
  | slight_shoulder_height
  | spine_alignment
  | slight_spine_deviation
  | slouching
  | head_neck_alignment
  | slight_head_neck
  | too_close_to_camera
  | too_far_from_camera
  deriving DecidableEq

/-- Insertion order of the issue keys in `analyzePosture` (the textual order of
the threshold checks), which is the iteration order of the `potentialIssues`
object. -/
def issueOrder : List IssueKey :=
  [.forward_head, .slight_forward_head, .uneven_shoulders, .slight_shoulder_imbalance,
   .head_tilt, .slight_head_tilt, .shoulder_height_imbalance, .slight_shoulder_height,
   .spine_alignment, .slight_spine_deviation, .slouching, .head_neck_alignment,
   .slight_head_neck, .too_close_to_camera, .too_far_from_camera]

/-- The `issueConsistency` object: an insertion-ordered association list from
issue key to its consistency counter. -/
abbrev Counters := List (IssueKey × Nat)

/-- Value of one key in the counter object (0 when absent, as `(x || 0)` reads). -/
def lookupCount : Counters → IssueKey → Nat
  | [], _ => 0
  | (k', n) :: rest, k => if k' = k then n else lookupCount rest k

/-- First update loop of `analyzePosture` (lines 506-512): every tracked issue
not flagged this frame gets `Math.max(0, count - 3)`; flagged ones are left
for the second loop. Natural subtraction is exactly `max 0 (count - 3)`. -/
def decayCounters (c : Counters) (flags : IssueKey → Prop) [DecidablePred flags] : Counters :=
  c.map fun p => if flags p.1 then p else (p.1, p.2 - 3)

/-- One step of the second update loop:
`issueConsistency[issue] = (issueConsistency[issue] || 0) + 1`, updating the
entry in place or appending a fresh one at the end. -/
def bumpCounter : Counters → IssueKey → Counters
  | [], k => [(k, 1)]
  | (k', n) :: rest, k =>
    if k' = k then (k', n + 1) :: rest else (k', n) :: bumpCounter rest k

/-- Both update loops of `analyzePosture` (lines 506-519): decay the counters
of unflagged issues, then increment the counter of every flagged issue by 1
(uncapped), iterating the flagged keys in their insertion order. -/
def updateConsistency (c : Counters) (flags : IssueKey → Prop) [DecidablePred flags] : Counters :=
  (issueOrder.filter fun k => decide (flags k)).foldl bumpCounter (decayCounters c flags)

/-- The coaching string pushed for each issue key (the `switch` of
`analyzePosture`, lines 521-573). -/
def issueMessage : IssueKey → String
  | .forward_head =>
    "Forward head posture - Try pulling your chin back and aligning your ears over your shoulders"
  | .slight_forward_head =>
    "Slight forward head - Gently tuck your chin and lengthen the back of your neck"
  | .uneven_shoulders =>
    "Uneven shoulders - Try to level your shoulders by relaxing the higher one"
  | .slight_shoulder_imbalance =>
    "Slight shoulder imbalance - Focus on keeping both shoulders at the same height"
  | .head_tilt =>
    "Head tilted - Try to keep your head level and centered"
  | .slight_head_tilt =>
    "Slight head tilt - Gently straighten your head to center"
  | .shoulder_height_imbalance =>
    "Shoulder height imbalance - Relax your shoulders and let them hang naturally"
  | .slight_shoulder_height =>
    "Slight shoulder height difference - Focus on keeping shoulders level"
  | .spine_alignment =>
    "Poor spine alignment - Sit up straight, imagine a string pulling you up from the top of your head"
  | .slight_spine_deviation =>
    "Slight spine deviation - Gently straighten your back and engage your core"
  | .slouching =>
    "Slouching detected - Roll your shoulders back and down, open your chest"
  | .head_neck_alignment =>
    "Poor head and neck alignment - Try to align your head directly over your shoulders"
  | .slight_head_neck =>
    "Slight head/neck misalignment - Gently adjust your head position"
  | .too_close_to_camera =>
    "Too close to camera - Move back to get better posture detection"
  | .too_far_from_camera =>
    "Too far from camera - Move closer for better posture detection"

/-- Selection loop of `analyzePosture` (lines 521-573): an issue's message is
pushed only if its counter (after the update) is at least the consistency
threshold 3 and the issue is flagged this frame. -/
def consistentIssues (c : Counters) (flags : IssueKey → Prop) [DecidablePred flags] :
    List String :=
  (c.filter fun p => decide (3 ≤ p.2 ∧ flags p.1)).map fun p => issueMessage p.1

/-- The result record of a posture analysis (interface `PostureAnalysis`). -/
structure PostureAnalysis where
  score : ℝ
  issues : List String
  neckAngle : ℝ
  shoulderAlignment : ℝ
  spineAlignment : ℝ
  headPosition : ℝ
  shoulderHeight : ℝ

noncomputable section

open Classical

/-- `Math.atan2 y x`: the angle of the point `(x, y)`, in radians. -/
def atan2 (y x : ℝ) : ℝ :=
  if 0 < x then Real.arctan (y / x)
  else if x < 0 ∧ 0 ≤ y then Real.arctan (y / x) + Real.pi
  else if x < 0 ∧ y < 0 then Real.arctan (y / x) - Real.pi
  else if x = 0 ∧ 0 < y then Real.pi / 2
  else if x = 0 ∧ y < 0 then -(Real.pi / 2)
  else 0

/-- `calculateNeckAngle`: angle between the shoulder-to-ear and ear-to-nose
vectors, reported as `max 0 (180 - angle in degrees)`; 0 when a relevant joint
has visibility below 0.5 or a vector is degenerate. -/
def calculateNeckAngle (lm : PoseLandmarks) : ℝ :=
  let nose := lm .nose
  let leftEar := lm .leftEar
  let leftShoulder := lm .leftShoulder
  if nose.visibility < 0.5 ∨ leftEar.visibility < 0.5 ∨ leftShoulder.visibility < 0.5 then 0
  else
    let vec1X : ℝ := (leftEar.x : ℝ) - (leftShoulder.x : ℝ)
    let vec1Y : ℝ := (leftEar.y : ℝ) - (leftShoulder.y : ℝ)
    let vec2X : ℝ := (nose.x : ℝ) - (leftEar.x : ℝ)
    let vec2Y : ℝ := (nose.y : ℝ) - (leftEar.y : ℝ)
    let dotProduct := vec1X * vec2X + vec1Y * vec2Y
    let mag1 := Real.sqrt (vec1X * vec1X + vec1Y * vec1Y)
    let mag2 := Real.sqrt (vec2X * vec2X + vec2Y * vec2Y)
    if mag1 = 0 ∨ mag2 = 0 then 0
    else
      let angleRad := Real.arccos (max (-1) (min 1 (dotProduct / (mag1 * mag2))))
      let angleDeg := angleRad * 180 / Real.pi
      max 0 (180 - angleDeg)

/-- `calculateShoulderAlignment`: absolute angle (in degrees) of the
shoulder-to-shoulder line against the horizontal; 0 when a shoulder has
visibility below 0.5. -/
def calculateShoulderAlignment (lm : PoseLandmarks) : ℝ :=
  let leftShoulder := lm .leftShoulder
  let rightShoulder := lm .rightShoulder
  if leftShoulder.visibility < 0.5 ∨ rightShoulder.visibility < 0.5 then 0
  else
    let angleRad := atan2 ((rightShoulder.y : ℝ) - (leftShoulder.y : ℝ))
      ((rightShoulder.x : ℝ) - (leftShoulder.x : ℝ))
    |angleRad * 180 / Real.pi|

/-- `calculateSpineAlignment`: absolute angle (in degrees) of the
shoulder-midpoint-to-hip-midpoint line against the vertical; 0 when a shoulder
or hip has visibility below 0.5. -/
def calculateSpineAlignment (lm : PoseLandmarks) : ℝ :=
  let leftShoulder := lm .leftShoulder
  let rightShoulder := lm .rightShoulder
  let leftHip := lm .leftHip
  let rightHip := lm .rightHip
  if leftShoulder.visibility < 0.5 ∨ rightShoulder.visibility < 0.5 ∨
      leftHip.visibility < 0.5 ∨ rightHip.visibility < 0.5 then 0
  else
    let shoulderMidX : ℝ := ((leftShoulder.x : ℝ) + (rightShoulder.x : ℝ)) / 2
    let shoulderMidY : ℝ := ((leftShoulder.y : ℝ) + (rightShoulder.y : ℝ)) / 2
    let hipMidX : ℝ := ((leftHip.x : ℝ) + (rightHip.x : ℝ)) / 2
    let hipMidY : ℝ := ((leftHip.y : ℝ) + (rightHip.y : ℝ)) / 2
    let angleRad := atan2 (hipMidX - shoulderMidX) (hipMidY - shoulderMidY)
    |angleRad * 180 / Real.pi|

/-- `calculateHeadPosition`: absolute angle (in degrees) of the ear-to-ear
line against the horizontal; 0 when an ear or the nose has visibility below
0.5. -/
def calculateHeadPosition (lm : PoseLandmarks) : ℝ :=
  let leftEar := lm .leftEar
  let rightEar := lm .rightEar
  let nose := lm .nose
  if leftEar.visibility < 0.5 ∨ rightEar.visibility < 0.5 ∨ nose.visibility < 0.5 then 0
  else
    let earAngleRad := atan2 ((rightEar.y : ℝ) - (leftEar.y : ℝ))
      ((rightEar.x : ℝ) - (leftEar.x : ℝ))
    |earAngleRad * 180 / Real.pi|

/-- `calculateShoulderHeight`: absolute shoulder height difference scaled by
10; 0 when a shoulder has visibility below 0.5. -/
def calculateShoulderHeight (lm : PoseLandmarks) : ℝ :=
  let leftShoulder := lm .leftShoulder
  let rightShoulder := lm .rightShoulder
  if leftShoulder.visibility < 0.5 ∨ rightShoulder.visibility < 0.5 then 0
  else |(leftShoulder.y : ℝ) - (rightShoulder.y : ℝ)| * 10

/-- `detectSlouching`: shoulders-center x ahead of hips-center x by more than
0.10; false when a shoulder or hip has visibility below 0.5. -/
def detectSlouching (lm : PoseLandmarks) : Prop :=
  let leftShoulder := lm .leftShoulder
  let rightShoulder := lm .rightShoulder
  let leftHip := lm .leftHip
  let rightHip := lm .rightHip
  if leftShoulder.visibility < 0.5 ∨ rightShoulder.visibility < 0.5 ∨
      leftHip.visibility < 0.5 ∨ rightHip.visibility < 0.5 then False
  else
    let shoulderCenterX := (leftShoulder.x + rightShoulder.x) / 2
    let hipCenterX := (leftHip.x + rightHip.x) / 2
    shoulderCenterX > hipCenterX + 0.10

/-- `calculateHeadNeckScore`: 10 minus penalties for ear/shoulder height
misalignment, head tilt and forward nose offset, floored at 0; 0 when a
relevant joint has visibility below 0.5. -/
def calculateHeadNeckScore (lm : PoseLandmarks) : ℝ :=
  let nose := lm .nose
  let leftEar := lm .leftEar
  let rightEar := lm .rightEar
  let leftShoulder := lm .leftShoulder
  let rightShoulder := lm .rightShoulder
  if nose.visibility < 0.5 ∨ leftEar.visibility < 0.5 ∨ rightEar.visibility < 0.5 ∨
      leftShoulder.visibility < 0.5 ∨ rightShoulder.visibility < 0.5 then 0
  else
    let earCenterY : ℝ := ((leftEar.y : ℝ) + (rightEar.y : ℝ)) / 2
    let shoulderCenterY : ℝ := ((leftShoulder.y : ℝ) + (rightShoulder.y : ℝ)) / 2
    let headShoulderAlignment := |earCenterY - shoulderCenterY|
    let s1 : ℝ :=
      if headShoulderAlignment > 0.15 then 10 - min 2 (headShoulderAlignment * 15) else 10
    let headTilt := |(leftEar.y : ℝ) - (rightEar.y : ℝ)|
    let s2 : ℝ := if headTilt > 0.08 then s1 - min 1.8 (headTilt * 20) else s1
    let noseShoulderDistance :=
      |(nose.x : ℝ) - ((leftShoulder.x : ℝ) + (rightShoulder.x : ℝ)) / 2|
    let s3 : ℝ :=
      if noseShoulderDistance > 0.2 then s2 - min 2.5 (noseShoulderDistance * 10) else s2
    max 0 s3

/-- Distance between the two shoulders (used by the camera-distance checks and
by the low-visibility branch of `analyzePosture`). -/
def shoulderDistance (lm : PoseLandmarks) : ℝ :=
  Real.sqrt ((((lm .leftShoulder).x : ℝ) - ((lm .rightShoulder).x : ℝ)) ^ 2 +
    (((lm .leftShoulder).y : ℝ) - ((lm .rightShoulder).y : ℝ)) ^ 2)

/-- Distance from the nose to the shoulder center (camera-distance checks). -/
def noseToShoulderDistance (lm : PoseLandmarks) : ℝ :=
  let shoulderCenterX : ℝ := (((lm .leftShoulder).x : ℝ) + ((lm .rightShoulder).x : ℝ)) / 2
  let shoulderCenterY : ℝ := (((lm .leftShoulder).y : ℝ) + ((lm .rightShoulder).y : ℝ)) / 2
  Real.sqrt ((((lm .nose).x : ℝ) - shoulderCenterX) ^ 2 +
    (((lm .nose).y : ℝ) - shoulderCenterY) ^ 2)

/-- `detectTooCloseToCamera`: shoulders wider than 0.8 of the frame or nose
very close to the shoulder line; false under the 0.5 visibility gate. -/
def detectTooCloseToCamera (lm : PoseLandmarks) : Prop :=
  if (lm .leftShoulder).visibility < 0.5 ∨ (lm .rightShoulder).visibility < 0.5 ∨
      (lm .nose).visibility < 0.5 then False
  else shoulderDistance lm > 0.8 ∨ noseToShoulderDistance lm / shoulderDistance lm < 0.3

/-- `detectTooFarFromCamera`: shoulders narrower than 0.15 of the frame or
nose far from the shoulder line; false under the 0.5 visibility gate. -/
def detectTooFarFromCamera (lm : PoseLandmarks) : Prop :=
  if (lm .leftShoulder).visibility < 0.5 ∨ (lm .rightShoulder).visibility < 0.5 ∨
      (lm .nose).visibility < 0.5 then False
  else shoulderDistance lm < 0.15 ∨ noseToShoulderDistance lm / shoulderDistance lm > 0.8

end

/-- The 2-of-3 visibility gate of `analyzePosture`: how many of nose, left
shoulder and right shoulder have visibility above 0.2. -/
def countVisible (lm : PoseLandmarks) : Nat :=
  (if (lm .nose).visibility > 0.2 then 1 else 0) +
  (if (lm .leftShoulder).visibility > 0.2 then 1 else 0) +
  (if (lm .rightShoulder).visibility > 0.2 then 1 else 0)

noncomputable section

open Classical

/-- Score penalty for the forward-head checks of `analyzePosture` (severe
threshold 30, slight threshold 20). -/
def neckPenalty (neckAngle : ℝ) : ℝ :=
  if neckAngle > 30 then min 2.0 (neckAngle * 0.08)
  else if neckAngle > 20 then min 0.8 (neckAngle * 0.04)
  else 0

/-- Score penalty for the shoulder-alignment checks (thresholds 20 / 12). -/
def shoulderAlignmentPenalty (shoulderAlignment : ℝ) : ℝ :=
  if shoulderAlignment > 20 then min 1.5 (shoulderAlignment * 0.08)
  else if shoulderAlignment > 12 then min 0.6 (shoulderAlignment * 0.04)
  else 0

/-- Score penalty for the head-tilt checks (thresholds 25 / 15). -/
def headPositionPenalty (headPosition : ℝ) : ℝ :=
  if headPosition > 25 then min 1.8 (headPosition * 0.08)
  else if headPosition > 15 then min 0.7 (headPosition * 0.04)
  else 0

/-- Score penalty for the shoulder-height checks (thresholds 30 / 22). -/
def shoulderHeightPenalty (shoulderHeight : ℝ) : ℝ :=
  if shoulderHeight > 30 then min 1.2 (shoulderHeight * 0.05)
  else if shoulderHeight > 22 then min 0.4 (shoulderHeight * 0.015)
  else 0

/-- Score penalty for the spine-alignment checks (thresholds 40 / 32). -/
def spineAlignmentPenalty (spineAlignment : ℝ) : ℝ :=
  if spineAlignment > 40 then min 1 (spineAlignment * 0.04)
  else if spineAlignment > 32 then min 0.4 (spineAlignment * 0.015)
  else 0

/-- Score penalty for the head/neck-score checks (thresholds 60 / 70). -/
def headNeckPenalty (headNeckScore : ℝ) : ℝ :=
  if headNeckScore < 60 then 1
  else if headNeckScore < 70 then 0.5
  else 0

/-- The `potentialIssues` booleans of `analyzePosture`: which issue keys this
frame flags (the else-if pairs make each slight tier exclusive with its severe
tier). -/
def potentialIssue (lm : PoseLandmarks) : IssueKey → Prop
  | .forward_head => calculateNeckAngle lm > 30
  | .slight_forward_head => ¬calculateNeckAngle lm > 30 ∧ calculateNeckAngle lm > 20
  | .uneven_shoulders => calculateShoulderAlignment lm > 20
  | .slight_shoulder_imbalance =>
    ¬calculateShoulderAlignment lm > 20 ∧ calculateShoulderAlignment lm > 12
  | .head_tilt => calculateHeadPosition lm > 25
  | .slight_head_tilt => ¬calculateHeadPosition lm > 25 ∧ calculateHeadPosition lm > 15
  | .shoulder_height_imbalance => calculateShoulderHeight lm > 30
  | .slight_shoulder_height =>
    ¬calculateShoulderHeight lm > 30 ∧ calculateShoulderHeight lm > 22
  | .spine_alignment => calculateSpineAlignment lm > 40
  | .slight_spine_deviation =>
    ¬calculateSpineAlignment lm > 40 ∧ calculateSpineAlignment lm > 32
  | .slouching => detectSlouching lm
  | .head_neck_alignment => calculateHeadNeckScore lm < 60
  | .slight_head_neck => ¬calculateHeadNeckScore lm < 60 ∧ calculateHeadNeckScore lm < 70
  | .too_close_to_camera => detectTooCloseToCamera lm
  | .too_far_from_camera => detectTooFarFromCamera lm

/-- The running score of `analyzePosture` before the final clamp: 10 minus the
penalty of every satisfied check, in the source's order. -/
def totalScore (lm : PoseLandmarks) : ℝ :=
  10 - neckPenalty (calculateNeckAngle lm)
    - shoulderAlignmentPenalty (calculateShoulderAlignment lm)
    - headPositionPenalty (calculateHeadPosition lm)
    - shoulderHeightPenalty (calculateShoulderHeight lm)
    - spineAlignmentPenalty (calculateSpineAlignment lm)
    - (if detectSlouching lm then 1.3 else 0)
    - headNeckPenalty (calculateHeadNeckScore lm)
    - (if detectTooCloseToCamera lm then 2 else 0)
    - (if detectTooFarFromCamera lm then 2 else 0)

/-- The positive-feedback strings appended after the consistent issues, chosen
by the pre-clamp score band. -/
def positiveFeedback (score : ℝ) : List String :=
  if score ≥ 8.0 then ["Excellent posture! Keep it up!"]
  else if score ≥ 7.0 then ["Good posture overall, minor adjustments needed"]
  else if score ≥ 6.0 then ["Posture is improving, keep working on it"]
  else []

/-- `analyzePosture`: the whole per-frame analysis. Returns the analysis
together with the updated `issueConsistency` object (mutated in place in the
source). When fewer than 2 of nose / left shoulder / right shoulder exceed
visibility 0.2 it short-circuits to a fixed degraded analysis (score 5 when
both shoulders exceed visibility 0.1 and sit closer than 0.1 apart, else
score 7.5), leaving the counters untouched; otherwise it computes the five
metrics, updates the counters from the flagged issues, selects the consistent
issues, appends the positive feedback, and clamps the score to `[2, 10]`. -/
def analyzePosture (issueConsistency : Counters) (lm : PoseLandmarks) :
    PostureAnalysis × Counters :=
  if countVisible lm < 2 then
    if (lm .leftShoulder).visibility > 0.1 ∧ (lm .rightShoulder).visibility > 0.1 then
      if shoulderDistance lm < 0.1 then
        ({ score := 5
           issues := ["Too far from camera - Move closer for better posture detection"]
           neckAngle := 0, shoulderAlignment := 0, spineAlignment := 0
           headPosition := 0, shoulderHeight := 0 }, issueConsistency)
      else
        ({ score := 7.5
           issues := ["Position yourself more clearly in front of the camera for better detection"]
           neckAngle := 0, shoulderAlignment := 0, spineAlignment := 0
           headPosition := 0, shoulderHeight := 0 }, issueConsistency)
    else
      ({ score := 7.5
         issues := ["Position yourself more clearly in front of the camera for better detection"]
         neckAngle := 0, shoulderAlignment := 0, spineAlignment := 0
         headPosition := 0, shoulderHeight := 0 }, issueConsistency)
  else
    let newCounters := updateConsistency issueConsistency (potentialIssue lm)
    let issues := consistentIssues newCounters (potentialIssue lm) ++
      positiveFeedback (totalScore lm)
    ({ score := max 2 (min 10 (totalScore lm))
       issues := issues
       neckAngle := calculateNeckAngle lm
       shoulderAlignment := calculateShoulderAlignment lm
       spineAlignment := calculateSpineAlignment lm
       headPosition := calculateHeadPosition lm
       shoulderHeight := calculateShoulderHeight lm }, newCounters)

/-- `Math.round`: round half up, as a real (the score smoothing uses it). -/
def jsRound (x : ℝ) : ℝ := (⌊x + 1 / 2⌋ : ℤ)

/-- `Math.round(x * 10) / 10`: round to one decimal (the metric smoothing). -/
def roundTenth (x : ℝ) : ℝ := ((⌊x * 10 + 1 / 2⌋ : ℤ) : ℝ) / 10

/-- `smoothPostureAnalysis`: with an empty history, the current analysis (or
the hard-coded initializing record); otherwise the rounded means of score and
of the five metrics over the history, with the issues of the most recent entry
alone; the counter object is cleared when the raw mean score exceeds 8.0, and
its zero-count entries are deleted. -/
def smoothPostureAnalysis (postureHistory : List PostureAnalysis)
    (currentAnalysis : Option PostureAnalysis) (issueConsistency : Counters) :
    PostureAnalysis × Counters :=
  match postureHistory with
  | [] =>
    (currentAnalysis.getD
      { score := 85, issues := ["Initializing posture analysis..."]
        neckAngle := 0, shoulderAlignment := 0, spineAlignment := 0
        headPosition := 0, shoulderHeight := 0 }, issueConsistency)
  | a :: rest =>
    let hist := a :: rest
    let n : ℝ := hist.length
    let avgScore := (hist.map PostureAnalysis.score).sum / n
    let avgNeckAngle := (hist.map PostureAnalysis.neckAngle).sum / n
    let avgShoulderAlignment := (hist.map PostureAnalysis.shoulderAlignment).sum / n
    let avgSpineAlignment := (hist.map PostureAnalysis.spineAlignment).sum / n
    let avgHeadPosition := (hist.map PostureAnalysis.headPosition).sum / n
    let avgShoulderHeight := (hist.map PostureAnalysis.shoulderHeight).sum / n
    let latestAnalysis := hist.getLast (List.cons_ne_nil a rest)
    let issues := latestAnalysis.issues
    let c1 := if avgScore > 8.0 then ([] : Counters) else issueConsistency
    let c2 := c1.filter fun p => decide (p.2 ≠ 0)
    ({ score := jsRound avgScore
       issues := issues
       neckAngle := roundTenth avgNeckAngle
       shoulderAlignment := roundTenth avgShoulderAlignment
       spineAlignment := roundTenth avgSpineAlignment
       headPosition := roundTenth avgHeadPosition
       shoulderHeight := roundTenth avgShoulderHeight }, c2)

end

/-- Push onto a rolling window: append, then shift the front entry out when
the window exceeds its size (the detection loop keeps the posture history at
12 entries and the landmark history at 6 this way). -/
def pushWindow {α : Type} (window : List α) (a : α) (maxLen : Nat) : List α :=
  let w := window ++ [a]
  if maxLen < w.length then w.drop 1 else w

/-- The emit decision at the end of one detection-loop pass: publish (and
reset `lastUpdateTime` to `now`) exactly when at least `UPDATE_INTERVAL`
(2000 ms) has passed since the last publication. -/
def emitStep (lastUpdateTime now : ℤ) : ℤ × Bool :=
  if 2000 ≤ now - lastUpdateTime then (now, true) else (lastUpdateTime, false)

/-- The instants at which the loop publishes, over a list of per-frame wall
clock readings, starting from a given `lastUpdateTime`. -/
def emittedTimes (lastUpdateTime : ℤ) : List ℤ → List ℤ
  | [] => []
  | now :: rest =>
    let s := emitStep lastUpdateTime now
    if s.2 then now :: emittedTimes s.1 rest else emittedTimes s.1 rest

/-- The mutable fields of the engine (class `TensorFlowPoseService`). -/
structure EngineState where
  animationFrame : Option ℤ
  isPageVisible : Bool
  currentAnalysis : Option PostureAnalysis
  isInit : Bool
  postureHistory : List PostureAnalysis
  landmarkHistory : List PoseLandmarks
  issueConsistency : Counters
  lastUpdateTime : ℤ

/-- `stop()`: cancels the pending callback (via `clearTimeout` or
`cancelAnimationFrame`, picked by the current visibility flag) and nulls the
handle, nulls `currentAnalysis`, and lowers the initialized flag. Every other
field — the two history windows, the consistency counters, the last emit
time — is left as it was. -/
def stop (s : EngineState) : EngineState :=
  { s with animationFrame := none, currentAnalysis := none, isInit := false }

/-! Concrete inputs used to evaluate the definitions on closed instances. -/

/-- A landmark frame giving every joint the same landmark. -/
def constFrame (l : Landmark) : PoseLandmarks := fun _ => l

/-- Every joint at the origin with full visibility. -/
def lmVisible : PoseLandmarks := constFrame ⟨0, 0, 0, 1⟩

/-- Every joint invisible (visibility 0). -/
def lmHidden : PoseLandmarks := constFrame ⟨0, 0, 0, 0⟩

/-- Every joint at x = 1 with visibility 0 (below the smoothing floor). -/
def lmLowA : PoseLandmarks := constFrame ⟨1, 0, 0, 0⟩

/-- Every joint at x = 2 with visibility 0 (below the smoothing floor). -/
def lmLowB : PoseLandmarks := constFrame ⟨2, 0, 0, 0⟩

/-- A frame whose shoulders are faintly visible (0.15) and coincident, with
every other joint invisible: it fails the 2-of-3 gate and triggers the
too-far-from-camera degraded analysis. -/
def lmTooFar : PoseLandmarks := fun j =>
  match j with
  | .leftShoulder => ⟨0, 0, 0, 3/20⟩
  | .rightShoulder => ⟨0, 0, 0, 3/20⟩
  | _ => ⟨0, 0, 0, 0⟩

/-- A posture analysis with the given score and issues and all-zero metrics. -/
def simplePA (score : ℝ) (issues : List String) : PostureAnalysis :=
  ⟨score, issues, 0, 0, 0, 0, 0⟩

/-- A concrete engine state with pending callback, a current analysis and
non-empty history buffers. -/
noncomputable def runningEngine : EngineState where
  animationFrame := some 7
  isPageVisible := true
  currentAnalysis := some (simplePA 6 [])
  isInit := true
  postureHistory := [simplePA 7 []]
  landmarkHistory := [lmVisible]
  issueConsistency := [(.forward_head, 2)]
  lastUpdateTime := 0

/-! Association-list lemmas about the consistency-counter object. -/

theorem lookupCount_nil (k : IssueKey) : lookupCount [] k = 0 := rfl

theorem lookupCount_cons (k' : IssueKey) (n : ℕ) (rest : Counters) (k : IssueKey) :
    lookupCount ((k', n) :: rest) k = if k' = k then n else lookupCount rest k := rfl

theorem decayCounters_cons (p : IssueKey × ℕ) (rest : Counters)
    (flags : IssueKey → Prop) [DecidablePred flags] :
    decayCounters (p :: rest) flags =
      (if flags p.1 then p else (p.1, p.2 - 3)) :: decayCounters rest flags := rfl

theorem bumpCounter_cons (k' : IssueKey) (n : ℕ) (rest : Counters) (k : IssueKey) :
    bumpCounter ((k', n) :: rest) k =
      if k' = k then (k', n + 1) :: rest else (k', n) :: bumpCounter rest k := rfl

theorem lookupCount_decayCounters (c : Counters) (flags : IssueKey → Prop)
    [DecidablePred flags] (k : IssueKey) :
    lookupCount (decayCounters c flags) k =
      if flags k then lookupCount c k else lookupCount c k - 3 := by
  induction c with
  | nil => simp [decayCounters, lookupCount_nil]
  | cons p rest ih =>
    obtain ⟨k', n⟩ := p
    rw [decayCounters_cons]
    by_cases hf : flags k' <;> by_cases hk : k' = k <;>
      first
      | (subst hk; simp [lookupCount_cons, hf, ih])
      | simp [lookupCount_cons, hf, hk, ih]

theorem lookupCount_bumpCounter_self (c : Counters) (k : IssueKey) :
    lookupCount (bumpCounter c k) k = lookupCount c k + 1 := by
  induction c with
  | nil => simp [bumpCounter, lookupCount_cons, lookupCount_nil]
  | cons p rest ih =>
    obtain ⟨k', n⟩ := p
    rw [bumpCounter_cons]
    by_cases hk : k' = k
    · subst hk; simp [lookupCount_cons]
    · simp [lookupCount_cons, hk, ih]

theorem lookupCount_bumpCounter_other (c : Counters) {k' k : IssueKey} (h : k' ≠ k) :
    lookupCount (bumpCounter c k') k = lookupCount c k := by
  induction c with
  | nil => simp [bumpCounter, lookupCount_cons, lookupCount_nil, h]
  | cons p rest ih =>
    obtain ⟨k'', n⟩ := p
    rw [bumpCounter_cons]
    by_cases hk : k'' = k'
    · subst hk; simp [lookupCount_cons, h]
    · simp [lookupCount_cons, hk, ih]

theorem lookupCount_foldl_bump_not_mem {l : List IssueKey} {k : IssueKey} (h : k ∉ l)
    (c : Counters) : lookupCount (l.foldl bumpCounter c) k = lookupCount c k := by
  induction l generalizing c with
  | nil => rfl
  | cons a t ih =>
    have ha : a ≠ k := fun e => h (e ▸ List.mem_cons_self a t)
    rw [List.foldl_cons, ih (fun hm => h (List.mem_cons_of_mem _ hm)),
      lookupCount_bumpCounter_other _ ha]

theorem lookupCount_foldl_bump_nodup {l : List IssueKey} (hl : l.Nodup) (c : Counters)
    (k : IssueKey) :
    lookupCount (l.foldl bumpCounter c) k =
      lookupCount c k + (if k ∈ l then 1 else 0) := by
  induction l generalizing c with
  | nil => simp
  | cons a t ih =>
    obtain ⟨hat, htn⟩ := List.nodup_cons.mp hl
    by_cases hk : k = a
    · subst hk
      rw [List.foldl_cons, lookupCount_foldl_bump_not_mem hat,
        lookupCount_bumpCounter_self]
      simp
    · rw [List.foldl_cons, ih htn, lookupCount_bumpCounter_other _ (Ne.symm hk)]
      simp [hk]

theorem mem_issueOrder (k : IssueKey) : k ∈ issueOrder := by cases k <;> decide

theorem issueOrder_nodup : issueOrder.Nodup := by decide

theorem lookupCount_updateConsistency (c : Counters) (flags : IssueKey → Prop)
    [DecidablePred flags] (k : IssueKey) :
    lookupCount (updateConsistency c flags) k =
      if flags k then lookupCount c k + 1 else lookupCount c k - 3 := by
  unfold updateConsistency
  rw [lookupCount_foldl_bump_nodup (issueOrder_nodup.filter _),
    lookupCount_decayCounters]
  by_cases hf : flags k
  · simp [hf, List.mem_filter, mem_issueOrder]
  · simp [hf, List.mem_filter]

theorem keys_decayCounters (c : Counters) (flags : IssueKey → Prop)
    [DecidablePred flags] :
    (decayCounters c flags).map Prod.fst = c.map Prod.fst := by
  induction c with
  | nil => rfl
  | cons p rest ih =>
    rw [decayCounters_cons, List.map_cons, List.map_cons, ih]
    by_cases hf : flags p.1 <;> simp [hf]

theorem mem_keys_bumpCounter (c : Counters) (k k' : IssueKey) :
    k' ∈ (bumpCounter c k).map Prod.fst ↔ k' ∈ c.map Prod.fst ∨ k' = k := by
  induction c with
  | nil => simp [bumpCounter]
  | cons p rest ih =>
    obtain ⟨k'', n⟩ := p
    rw [bumpCounter_cons]
    by_cases hk : k'' = k
    · subst hk
      rw [if_pos rfl]
      simp only [List.map_cons, List.mem_cons]
      tauto
    · rw [if_neg hk]
      simp only [List.map_cons, List.mem_cons, ih]
      tauto

theorem nodup_keys_bumpCounter (c : Counters) (k : IssueKey)
    (h : (c.map Prod.fst).Nodup) : ((bumpCounter c k).map Prod.fst).Nodup := by
  induction c with
  | nil => simp [bumpCounter]
  | cons p rest ih =>
    obtain ⟨k'', n⟩ := p
    rw [List.map_cons, List.nodup_cons] at h
    obtain ⟨hh, ht⟩ := h
    rw [bumpCounter_cons]
    by_cases hk : k'' = k
    · subst hk
      rw [if_pos rfl, List.map_cons, List.nodup_cons]
      exact ⟨hh, ht⟩
    · rw [if_neg hk, List.map_cons, List.nodup_cons]
      refine ⟨?_, ih ht⟩
      rw [mem_keys_bumpCounter]
      rintro (hm | he)
      · exact hh hm
      · exact hk he

theorem mem_keys_foldl_bump (l : List IssueKey) (c : Counters) (k : IssueKey) :
    k ∈ (l.foldl bumpCounter c).map Prod.fst ↔ k ∈ c.map Prod.fst ∨ k ∈ l := by
  induction l generalizing c with
  | nil => simp
  | cons a t ih =>
    rw [List.foldl_cons, ih, mem_keys_bumpCounter]
    simp only [List.mem_cons]
    tauto

theorem nodup_keys_foldl_bump (l : List IssueKey) (c : Counters)
    (h : (c.map Prod.fst).Nodup) : ((l.foldl bumpCounter c).map Prod.fst).Nodup := by
  induction l generalizing c with
  | nil => exact h
  | cons a t ih => exact ih _ (nodup_keys_bumpCounter _ _ h)

theorem mem_keys_updateConsistency (c : Counters) (flags : IssueKey → Prop)
    [DecidablePred flags] (k : IssueKey) :
    k ∈ (updateConsistency c flags).map Prod.fst ↔ flags k ∨ k ∈ c.map Prod.fst := by
  unfold updateConsistency
  rw [mem_keys_foldl_bump, keys_decayCounters]
  simp [List.mem_filter, mem_issueOrder]
  tauto

theorem nodup_keys_updateConsistency (c : Counters) (flags : IssueKey → Prop)
    [DecidablePred flags] (h : (c.map Prod.fst).Nodup) :
    ((updateConsistency c flags).map Prod.fst).Nodup := by
  unfold updateConsistency
  exact nodup_keys_foldl_bump _ _ (by rwa [keys_decayCounters])

theorem lookupCount_eq_of_mem {c : Counters} (hnd : (c.map Prod.fst).Nodup)
    {k : IssueKey} {n : ℕ} (h : (k, n) ∈ c) : lookupCount c k = n := by
  induction c with
  | nil => cases h
  | cons p rest ih =>
    obtain ⟨k', m⟩ := p
    rw [List.map_cons, List.nodup_cons] at hnd
    rcases List.mem_cons.mp h with he | hm
    · injection he with h1 h2
      subst h1
      subst h2
      rw [lookupCount_cons, if_pos rfl]
    · have hk : k' ≠ k := by
        rintro rfl
        exact hnd.1 (List.mem_map.mpr ⟨(k', n), hm, rfl⟩)
      rw [lookupCount_cons, if_neg hk]
      exact ih hnd.2 hm

theorem mem_of_lookupCount_ne_zero {c : Counters} {k : IssueKey}
    (h : lookupCount c k ≠ 0) : (k, lookupCount c k) ∈ c := by
  induction c with
  | nil => exact absurd rfl h
  | cons p rest ih =>
    obtain ⟨k', m⟩ := p
    by_cases hk : k' = k
    · subst hk
      rw [lookupCount_cons, if_pos rfl]
      exact List.mem_cons_self _ _
    · rw [lookupCount_cons, if_neg hk] at h ⊢
      exact List.mem_cons_of_mem _ (ih h)

theorem issueMessage_injective : Function.Injective issueMessage := by
  intro a b
  cases a <;> cases b <;> decide

theorem issueMessage_not_mem_positiveFeedback (k : IssueKey) (s : ℝ) :
    issueMessage k ∉ positiveFeedback s := by
  unfold positiveFeedback
  split
  · cases k <;> decide
  · split
    · cases k <;> decide
    · split
      · cases k <;> decide
      · simp

theorem mem_consistentIssues (c : Counters) (flags : IssueKey → Prop)
    [DecidablePred flags] (k : IssueKey) :
    issueMessage k ∈ consistentIssues c flags ↔ ∃ n, (k, n) ∈ c ∧ 3 ≤ n ∧ flags k := by
  unfold consistentIssues
  rw [List.mem_map]
  constructor
  · rintro ⟨p, hp, he⟩
    obtain ⟨hmem, hcond⟩ := List.mem_filter.mp hp
    have hc := of_decide_eq_true hcond
    have hpk : p.1 = k := issueMessage_injective he
    refine ⟨p.2, ?_, hc.1, hpk ▸ hc.2⟩
    rwa [← hpk, Prod.mk.eta]
  · rintro ⟨n, hmem, h3, hf⟩
    exact ⟨(k, n), List.mem_filter.mpr ⟨hmem, decide_eq_true ⟨h3, hf⟩⟩, rfl⟩

/-- C5 (amended): in every per-frame classification step, each tracked issue
absent from this frame's `potentialIssues` has its counter decremented by 3
with a floor of 0 and stays tracked even at 0 — zero-count entries are only
deleted at the next smoothing pass, not in the per-frame step — and each
flagged issue has its counter incremented by exactly 1, with no upper cap. -/
theorem counter_decrement_increment_rule (c : Counters) (flags : IssueKey → Prop)
    [DecidablePred flags] (k : IssueKey) :
    (lookupCount (updateConsistency c flags) k =
      if flags k then lookupCount c k + 1 else lookupCount c k - 3) ∧
    (k ∈ (updateConsistency c flags).map Prod.fst ↔ flags k ∨ k ∈ c.map Prod.fst) ∧
    (∀ (h : List PostureAnalysis) (cur : Option PostureAnalysis), h ≠ [] →
      ∀ p ∈ (smoothPostureAnalysis h cur c).2, p.2 ≠ 0) := by
  refine ⟨lookupCount_updateConsistency c flags k,
    mem_keys_updateConsistency c flags k, ?_⟩
  intro h cur hne p hp
  cases h with
  | nil => exact absurd rfl hne
  | cons a rest =>
    simp only [smoothPostureAnalysis] at hp
    simpa using (List.mem_filter.mp hp).2

/-- Counterexample to C5 as stated: an issue whose counter drops to 0 in the
per-frame step is not pruned there — the zero-count entry remains tracked. -/
theorem counter_zero_entry_not_pruned :
    updateConsistency [(IssueKey.forward_head, 1)] (fun _ => False) =
      [(IssueKey.forward_head, 0)] := by decide

section
open Classical

/-- C1 (amended): past the 2-of-3 visibility gate, an issue's message is in
the per-frame issues list exactly when its updated consistency counter is at
least 3 and the issue is flagged this frame; the updated counter is the old
one plus 1 when flagged, minus 3 (floored at 0) when not; hence an issue whose
counter was 0 never surfaces this frame, and an unflagged issue never
surfaces whatever its counter. (Under the gate the fixed degraded analyses
carry their own instructional strings — see the counterexample.) -/
theorem issue_shown_iff_counter_and_flag (c : Counters) (lm : PoseLandmarks)
    (k : IssueKey) (hgate : 2 ≤ countVisible lm) (hnd : (c.map Prod.fst).Nodup) :
    (issueMessage k ∈ (analyzePosture c lm).1.issues ↔
      3 ≤ lookupCount (analyzePosture c lm).2 k ∧ potentialIssue lm k) ∧
    (lookupCount (analyzePosture c lm).2 k =
      if potentialIssue lm k then lookupCount c k + 1 else lookupCount c k - 3) ∧
    ((analyzePosture c lm).2.map Prod.fst).Nodup ∧
    (lookupCount c k = 0 → issueMessage k ∉ (analyzePosture c lm).1.issues) ∧
    (¬potentialIssue lm k → issueMessage k ∉ (analyzePosture c lm).1.issues) := by
  have hlt : ¬countVisible lm < 2 := not_lt.mpr hgate
  have hissues : (analyzePosture c lm).1.issues =
      consistentIssues (updateConsistency c (potentialIssue lm)) (potentialIssue lm) ++
        positiveFeedback (totalScore lm) := by
    unfold analyzePosture
    rw [if_neg hlt]
  have hcounters : (analyzePosture c lm).2 = updateConsistency c (potentialIssue lm) := by
    unfold analyzePosture
    rw [if_neg hlt]
  rw [hissues, hcounters]
  have hmain : issueMessage k ∈
      consistentIssues (updateConsistency c (potentialIssue lm)) (potentialIssue lm) ++
        positiveFeedback (totalScore lm) ↔
      3 ≤ lookupCount (updateConsistency c (potentialIssue lm)) k ∧ potentialIssue lm k := by
    rw [List.mem_append]
    constructor
    · rintro (hm | hm)
      · obtain ⟨n, hmem, h3, hf⟩ := (mem_consistentIssues _ _ _).mp hm
        have hl := lookupCount_eq_of_mem (nodup_keys_updateConsistency c _ hnd) hmem
        exact ⟨hl ▸ h3, hf⟩
      · exact absurd hm (issueMessage_not_mem_positiveFeedback k _)
    · rintro ⟨h3, hf⟩
      left
      refine (mem_consistentIssues _ _ _).mpr
        ⟨lookupCount (updateConsistency c (potentialIssue lm)) k, ?_, h3, hf⟩
      exact mem_of_lookupCount_ne_zero (by omega)
  have hupd := lookupCount_updateConsistency c (potentialIssue lm) k
  refine ⟨hmain, hupd, nodup_keys_updateConsistency c _ hnd, ?_, ?_⟩
  · intro h0 hmem
    obtain ⟨h3, hf⟩ := hmain.mp hmem
    rw [hupd, if_pos hf, h0] at h3
    omega
  · intro hnf hmem
    exact hnf (hmain.mp hmem).2

/-- Witness for the C1 theorem: a fully visible frame passes the gate, and on
empty counters a flagged-or-not issue is never shown on the first frame. -/
theorem issue_shown_iff_counter_and_flag_witness :
    2 ≤ countVisible lmVisible ∧
    issueMessage IssueKey.forward_head ∉ (analyzePosture [] lmVisible).1.issues := by
  have hg : 2 ≤ countVisible lmVisible := by norm_num [countVisible, lmVisible, constFrame]
  have h := issue_shown_iff_counter_and_flag [] lmVisible IssueKey.forward_head
    hg List.nodup_nil
  exact ⟨hg, h.2.2.2.1 rfl⟩

/-- Counterexample to C1 as stated: a frame failing the visibility gate emits
the too-far-from-camera message with its counter at 0 and the issue unflagged
(the degraded analysis bypasses the consistency filter). -/
theorem degraded_issue_shown_without_counter :
    issueMessage IssueKey.too_far_from_camera ∈ (analyzePosture [] lmTooFar).1.issues ∧
    lookupCount (analyzePosture [] lmTooFar).2 IssueKey.too_far_from_camera = 0 ∧
    ¬potentialIssue lmTooFar IssueKey.too_far_from_camera := by
  have hgate : countVisible lmTooFar < 2 := by norm_num [countVisible, lmTooFar]
  have hvis : (lmTooFar .leftShoulder).visibility > 0.1 ∧
      (lmTooFar .rightShoulder).visibility > 0.1 := by
    exact ⟨by norm_num [lmTooFar], by norm_num [lmTooFar]⟩
  have hdist : shoulderDistance lmTooFar < 0.1 := by
    unfold shoulderDistance
    norm_num [lmTooFar]
  have ha : analyzePosture [] lmTooFar =
      ({ score := 5
         issues := ["Too far from camera - Move closer for better posture detection"]
         neckAngle := 0, shoulderAlignment := 0, spineAlignment := 0
         headPosition := 0, shoulderHeight := 0 }, []) := by
    unfold analyzePosture
    rw [if_pos hgate, if_pos hvis, if_pos hdist]
  rw [ha]
  refine ⟨List.mem_singleton.mpr rfl, rfl, ?_⟩
  show ¬detectTooFarFromCamera lmTooFar
  unfold detectTooFarFromCamera
  rw [if_pos (Or.inl (by norm_num [lmTooFar]))]
  exact not_false

theorem ite_sub_min_le (c : Prop) [Decidable c] (x a b : ℝ) (ha : 0 ≤ a) (hb : 0 ≤ b) :
    (if c then x - min a b else x) ≤ x := by
  split
  · have := le_min ha hb
    linarith
  · exact le_rfl

theorem calculateNeckAngle_nonneg (lm : PoseLandmarks) : 0 ≤ calculateNeckAngle lm := by
  unfold calculateNeckAngle
  dsimp only
  split
  · exact le_rfl
  · split
    · exact le_rfl
    · exact le_max_left 0 _

theorem calculateShoulderAlignment_nonneg (lm : PoseLandmarks) :
    0 ≤ calculateShoulderAlignment lm := by
  unfold calculateShoulderAlignment
  dsimp only
  split
  · exact le_rfl
  · exact abs_nonneg _

theorem calculateSpineAlignment_nonneg (lm : PoseLandmarks) :
    0 ≤ calculateSpineAlignment lm := by
  unfold calculateSpineAlignment
  dsimp only
  split
  · exact le_rfl
  · exact abs_nonneg _

theorem calculateHeadPosition_nonneg (lm : PoseLandmarks) :
    0 ≤ calculateHeadPosition lm := by
  unfold calculateHeadPosition
  dsimp only
  split
  · exact le_rfl
  · exact abs_nonneg _

theorem calculateShoulderHeight_nonneg (lm : PoseLandmarks) :
    0 ≤ calculateShoulderHeight lm := by
  unfold calculateShoulderHeight
  dsimp only
  split
  · exact le_rfl
  · positivity

theorem neckPenalty_nonneg {a : ℝ} (ha : 0 ≤ a) : 0 ≤ neckPenalty a := by
  unfold neckPenalty
  split
  · exact le_min (by norm_num) (mul_nonneg ha (by norm_num))
  · split
    · exact le_min (by norm_num) (mul_nonneg ha (by norm_num))
    · exact le_rfl

theorem shoulderAlignmentPenalty_nonneg {a : ℝ} (ha : 0 ≤ a) :
    0 ≤ shoulderAlignmentPenalty a := by
  unfold shoulderAlignmentPenalty
  split
  · exact le_min (by norm_num) (mul_nonneg ha (by norm_num))
  · split
    · exact le_min (by norm_num) (mul_nonneg ha (by norm_num))
    · exact le_rfl

theorem headPositionPenalty_nonneg {a : ℝ} (ha : 0 ≤ a) : 0 ≤ headPositionPenalty a := by
  unfold headPositionPenalty
  split
  · exact le_min (by norm_num) (mul_nonneg ha (by norm_num))
  · split
    · exact le_min (by norm_num) (mul_nonneg ha (by norm_num))
    · exact le_rfl

theorem shoulderHeightPenalty_nonneg {a : ℝ} (ha : 0 ≤ a) :
    0 ≤ shoulderHeightPenalty a := by
  unfold shoulderHeightPenalty
  split
  · exact le_min (by norm_num) (mul_nonneg ha (by norm_num))
  · split
    · exact le_min (by norm_num) (mul_nonneg ha (by norm_num))
    · exact le_rfl

theorem spineAlignmentPenalty_nonneg {a : ℝ} (ha : 0 ≤ a) :
    0 ≤ spineAlignmentPenalty a := by
  unfold spineAlignmentPenalty
  split
  · exact le_min (by norm_num) (mul_nonneg ha (by norm_num))
  · split
    · exact le_min (by norm_num) (mul_nonneg ha (by norm_num))
    · exact le_rfl

theorem calculateHeadNeckScore_bounds (lm : PoseLandmarks) :
    0 ≤ calculateHeadNeckScore lm ∧ calculateHeadNeckScore lm ≤ 10 := by
  unfold calculateHeadNeckScore
  dsimp only
  split
  · norm_num
  · refine ⟨le_max_left 0 _, max_le (by norm_num) ?_⟩
    refine le_trans (ite_sub_min_le _ _ _ _ (by norm_num) (by positivity)) ?_
    refine le_trans (ite_sub_min_le _ _ _ _ (by norm_num) (by positivity)) ?_
    exact ite_sub_min_le _ _ _ _ (by norm_num) (by positivity)

theorem totalScore_le_nine (lm : PoseLandmarks) : totalScore lm ≤ 9 := by
  unfold totalScore
  have h1 := neckPenalty_nonneg (calculateNeckAngle_nonneg lm)
  have h2 := shoulderAlignmentPenalty_nonneg (calculateShoulderAlignment_nonneg lm)
  have h3 := headPositionPenalty_nonneg (calculateHeadPosition_nonneg lm)
  have h4 := shoulderHeightPenalty_nonneg (calculateShoulderHeight_nonneg lm)
  have h5 := spineAlignmentPenalty_nonneg (calculateSpineAlignment_nonneg lm)
  have hhn : headNeckPenalty (calculateHeadNeckScore lm) = 1 := by
    unfold headNeckPenalty
    rw [if_pos (lt_of_le_of_lt (calculateHeadNeckScore_bounds lm).2 (by norm_num))]
  have hs : (0:ℝ) ≤ if detectSlouching lm then 1.3 else 0 := by split <;> norm_num
  have hc : (0:ℝ) ≤ if detectTooCloseToCamera lm then 2 else 0 := by split <;> norm_num
  have hf : (0:ℝ) ≤ if detectTooFarFromCamera lm then 2 else 0 := by split <;> norm_num
  rw [hhn]
  linarith

/-- C10: for every frame past the 2-of-3 visibility gate, the head/neck score
lies in `[0, 10]`, hence is always below the 60 threshold, so the
`head_neck_alignment` issue is flagged with its flat penalty of 1 on every
such frame, and the per-frame score never exceeds 9. -/
theorem headneck_always_flagged_score_le_nine (c : Counters) (lm : PoseLandmarks)
    (hgate : 2 ≤ countVisible lm) :
    0 ≤ calculateHeadNeckScore lm ∧ calculateHeadNeckScore lm ≤ 10 ∧
    calculateHeadNeckScore lm < 60 ∧
    potentialIssue lm IssueKey.head_neck_alignment ∧
    headNeckPenalty (calculateHeadNeckScore lm) = 1 ∧
    (analyzePosture c lm).1.score ≤ 9 := by
  obtain ⟨h0, h10⟩ := calculateHeadNeckScore_bounds lm
  have h60 : calculateHeadNeckScore lm < 60 := lt_of_le_of_lt h10 (by norm_num)
  have hpen : headNeckPenalty (calculateHeadNeckScore lm) = 1 := by
    unfold headNeckPenalty
    rw [if_pos h60]
  have hscore : (analyzePosture c lm).1.score = max 2 (min 10 (totalScore lm)) := by
    unfold analyzePosture
    rw [if_neg (not_lt.mpr hgate)]
  refine ⟨h0, h10, h60, h60, hpen, ?_⟩
  rw [hscore]
  exact max_le (by norm_num)
    (le_trans (min_le_right _ _) (totalScore_le_nine lm))

/-- Witness for the C10 theorem at a fully visible frame. -/
theorem headneck_always_flagged_score_le_nine_witness :
    2 ≤ countVisible lmVisible ∧ (analyzePosture [] lmVisible).1.score ≤ 9 := by
  have hg : 2 ≤ countVisible lmVisible := by norm_num [countVisible, lmVisible, constFrame]
  exact ⟨hg, (headneck_always_flagged_score_le_nine [] lmVisible hg).2.2.2.2.2⟩

/-- C2: a frame in which fewer than 2 of nose / left shoulder / right shoulder
exceed visibility 0.2 short-circuits to a fixed degraded analysis — score
exactly 5 with the too-far issue when both shoulders exceed visibility 0.1 and
lie less than 0.1 apart, else score exactly 7.5 with the reposition issue,
with all five metrics 0 and the counters untouched — and every frame passing
the gate gets a score in `[2, 10]`. -/
theorem visibility_gate_degraded_or_bounded (c : Counters) (lm : PoseLandmarks) :
    (countVisible lm < 2 →
      (analyzePosture c lm).2 = c ∧
      (analyzePosture c lm).1.neckAngle = 0 ∧
      (analyzePosture c lm).1.shoulderAlignment = 0 ∧
      (analyzePosture c lm).1.spineAlignment = 0 ∧
      (analyzePosture c lm).1.headPosition = 0 ∧
      (analyzePosture c lm).1.shoulderHeight = 0 ∧
      (((lm .leftShoulder).visibility > 0.1 ∧ (lm .rightShoulder).visibility > 0.1) ∧
          shoulderDistance lm < 0.1 →
        (analyzePosture c lm).1.score = 5 ∧
        (analyzePosture c lm).1.issues =
          ["Too far from camera - Move closer for better posture detection"]) ∧
      (¬(((lm .leftShoulder).visibility > 0.1 ∧ (lm .rightShoulder).visibility > 0.1) ∧
          shoulderDistance lm < 0.1) →
        (analyzePosture c lm).1.score = 7.5 ∧
        (analyzePosture c lm).1.issues =
          ["Position yourself more clearly in front of the camera for better detection"])) ∧
    (2 ≤ countVisible lm →
      2 ≤ (analyzePosture c lm).1.score ∧ (analyzePosture c lm).1.score ≤ 10) := by
  constructor
  · intro hlt
    by_cases hv : (lm .leftShoulder).visibility > 0.1 ∧ (lm .rightShoulder).visibility > 0.1
    · by_cases hd : shoulderDistance lm < 0.1
      · have ha : analyzePosture c lm =
            ({ score := 5
               issues := ["Too far from camera - Move closer for better posture detection"]
               neckAngle := 0, shoulderAlignment := 0, spineAlignment := 0
               headPosition := 0, shoulderHeight := 0 }, c) := by
          unfold analyzePosture
          rw [if_pos hlt, if_pos hv, if_pos hd]
        rw [ha]
        exact ⟨rfl, rfl, rfl, rfl, rfl, rfl, fun _ => ⟨rfl, rfl⟩,
          fun hcon => absurd ⟨hv, hd⟩ hcon⟩
      · have ha : analyzePosture c lm =
            ({ score := 7.5
               issues :=
                 ["Position yourself more clearly in front of the camera for better detection"]
               neckAngle := 0, shoulderAlignment := 0, spineAlignment := 0
               headPosition := 0, shoulderHeight := 0 }, c) := by
          unfold analyzePosture
          rw [if_pos hlt, if_pos hv, if_neg hd]
        rw [ha]
        exact ⟨rfl, rfl, rfl, rfl, rfl, rfl, fun h => absurd h.2 hd, fun _ => ⟨rfl, rfl⟩⟩
    · have ha : analyzePosture c lm =
          ({ score := 7.5
             issues :=
               ["Position yourself more clearly in front of the camera for better detection"]
             neckAngle := 0, shoulderAlignment := 0, spineAlignment := 0
             headPosition := 0, shoulderHeight := 0 }, c) := by
        unfold analyzePosture
        rw [if_pos hlt, if_neg hv]
      rw [ha]
      exact ⟨rfl, rfl, rfl, rfl, rfl, rfl, fun h => absurd h.1 hv, fun _ => ⟨rfl, rfl⟩⟩
  · intro hge
    have hscore : (analyzePosture c lm).1.score = max 2 (min 10 (totalScore lm)) := by
      unfold analyzePosture
      rw [if_neg (not_lt.mpr hge)]
    rw [hscore]
    exact ⟨le_max_left 2 _, max_le (by norm_num) (min_le_left 10 _)⟩

/-- Witness for the C2 theorem: the too-far degraded frame scores exactly 5
and a fully visible frame scores within `[2, 10]`. -/
theorem visibility_gate_degraded_or_bounded_witness :
    (analyzePosture [] lmTooFar).1.score = 5 ∧
    2 ≤ (analyzePosture [] lmVisible).1.score ∧
    (analyzePosture [] lmVisible).1.score ≤ 10 := by
  have h1 := visibility_gate_degraded_or_bounded [] lmTooFar
  have h2 := visibility_gate_degraded_or_bounded [] lmVisible
  have hgate : countVisible lmTooFar < 2 := by norm_num [countVisible, lmTooFar]
  have hcond : ((lmTooFar .leftShoulder).visibility > 0.1 ∧
      (lmTooFar .rightShoulder).visibility > 0.1) ∧ shoulderDistance lmTooFar < 0.1 := by
    refine ⟨⟨by norm_num [lmTooFar], by norm_num [lmTooFar]⟩, ?_⟩
    unfold shoulderDistance
    norm_num [lmTooFar]
  refine ⟨((h1.1 hgate).2.2.2.2.2.2.1 hcond).1, ?_⟩
  exact h2.2 (by norm_num [countVisible, lmVisible, constFrame])

theorem foldl_pushWindow_drop {α : Type} (h : List α) (as : List α)
    (hh : h.length ≤ 12) :
    as.foldl (fun w a => pushWindow w a 12) h =
      (h ++ as).drop (h.length + as.length - 12) := by
  induction as generalizing h with
  | nil =>
    rw [List.foldl_nil, List.append_nil, List.length_nil, Nat.add_zero,
      Nat.sub_eq_zero_of_le hh, List.drop_zero]
  | cons a t ih =>
    rw [List.foldl_cons]
    by_cases hlen : 12 < (h ++ [a]).length
    · have h12 : h.length = 12 := by
        rw [List.length_append, List.length_singleton] at hlen
        omega
      have hpw : pushWindow h a 12 = (h ++ [a]).drop 1 := by
        unfold pushWindow
        rw [if_pos hlen]
      have hL : ((h ++ [a]).drop 1).length = 12 := by
        rw [List.length_drop, List.length_append, List.length_singleton, h12]
      rw [hpw, ih _ (le_of_eq hL), hL]
      rw [show 12 + t.length - 12 = t.length from by omega]
      rw [show h.length + (a :: t).length - 12 = 1 + t.length from by
        rw [List.length_cons, h12]; omega]
      rw [show h ++ a :: t = (h ++ [a]) ++ t from by
        rw [List.append_assoc, List.singleton_append]]
      rw [← List.drop_drop]
      conv_rhs => rw [List.drop_append_eq_append_drop]
      rw [show 1 - (h ++ [a]).length = 0 from by
        rw [List.length_append, List.length_singleton]; omega]
      rw [List.drop_zero]
    · have hpw : pushWindow h a 12 = h ++ [a] := by
        unfold pushWindow
        rw [if_neg hlen]
      have hle : (h ++ [a]).length ≤ 12 := by omega
      rw [hpw, ih _ hle]
      have hsplit : (h ++ [a]) ++ t = h ++ a :: t := by
        rw [List.append_assoc, List.singleton_append]
      rw [hsplit]
      congr 1
      rw [List.length_append, List.length_singleton, List.length_cons]
      omega

/-- C6: whenever every joint a given metric depends on has visibility below
0.5, that metric is exactly 0 (the code already returns 0 when any one such
joint is below 0.5). -/
theorem metric_zero_when_joints_invisible (lm : PoseLandmarks) :
    ((lm .nose).visibility < 0.5 ∧ (lm .leftEar).visibility < 0.5 ∧
        (lm .leftShoulder).visibility < 0.5 →
      calculateNeckAngle lm = 0) ∧
    ((lm .leftShoulder).visibility < 0.5 ∧ (lm .rightShoulder).visibility < 0.5 →
      calculateShoulderAlignment lm = 0) ∧
    ((lm .leftShoulder).visibility < 0.5 ∧ (lm .rightShoulder).visibility < 0.5 ∧
        (lm .leftHip).visibility < 0.5 ∧ (lm .rightHip).visibility < 0.5 →
      calculateSpineAlignment lm = 0) ∧
    ((lm .leftEar).visibility < 0.5 ∧ (lm .rightEar).visibility < 0.5 ∧
        (lm .nose).visibility < 0.5 →
      calculateHeadPosition lm = 0) ∧
    ((lm .leftShoulder).visibility < 0.5 ∧ (lm .rightShoulder).visibility < 0.5 →
      calculateShoulderHeight lm = 0) := by
  refine ⟨?_, ?_, ?_, ?_, ?_⟩
  · rintro ⟨h1, -, -⟩
    unfold calculateNeckAngle
    dsimp only
    rw [if_pos (Or.inl h1)]
  · rintro ⟨h1, -⟩
    unfold calculateShoulderAlignment
    dsimp only
    rw [if_pos (Or.inl h1)]
  · rintro ⟨h1, -, -, -⟩
    unfold calculateSpineAlignment
    dsimp only
    rw [if_pos (Or.inl h1)]
  · rintro ⟨h1, -, -⟩
    unfold calculateHeadPosition
    dsimp only
    rw [if_pos (Or.inl h1)]
  · rintro ⟨h1, -⟩
    unfold calculateShoulderHeight
    dsimp only
    rw [if_pos (Or.inl h1)]

/-- C3 (amended): over a non-empty history the smoothed score is the mean of
the per-frame scores rounded half-up to an integer (`Math.round`), each
smoothed metric is its mean rounded to one decimal, and the issues list is
exactly that of the single most recent per-frame analysis; the detection loop
keeps the history at the last `min(N, 12)` analyses. -/
theorem smoothed_analysis_rounded_means (hist : List PostureAnalysis)
    (cur : Option PostureAnalysis) (c : Counters) (hne : hist ≠ []) :
    ((smoothPostureAnalysis hist cur c).1.score =
      jsRound ((hist.map PostureAnalysis.score).sum / (hist.length : ℝ))) ∧
    ((smoothPostureAnalysis hist cur c).1.neckAngle =
      roundTenth ((hist.map PostureAnalysis.neckAngle).sum / (hist.length : ℝ))) ∧
    ((smoothPostureAnalysis hist cur c).1.shoulderAlignment =
      roundTenth ((hist.map PostureAnalysis.shoulderAlignment).sum / (hist.length : ℝ))) ∧
    ((smoothPostureAnalysis hist cur c).1.spineAlignment =
      roundTenth ((hist.map PostureAnalysis.spineAlignment).sum / (hist.length : ℝ))) ∧
    ((smoothPostureAnalysis hist cur c).1.headPosition =
      roundTenth ((hist.map PostureAnalysis.headPosition).sum / (hist.length : ℝ))) ∧
    ((smoothPostureAnalysis hist cur c).1.shoulderHeight =
      roundTenth ((hist.map PostureAnalysis.shoulderHeight).sum / (hist.length : ℝ))) ∧
    ((smoothPostureAnalysis hist cur c).1.issues = (hist.getLast hne).issues) ∧
    (∀ as : List PostureAnalysis,
      as.foldl (fun w a => pushWindow w a 12) [] = as.drop (as.length - 12)) := by
  cases hist with
  | nil => exact absurd rfl hne
  | cons a rest =>
    refine ⟨rfl, rfl, rfl, rfl, rfl, rfl, rfl, ?_⟩
    intro as
    simpa using foldl_pushWindow_drop [] as (by simp)

/-- Witness for the C3 theorem on a one-element history. -/
theorem smoothed_analysis_rounded_means_witness :
    (smoothPostureAnalysis [simplePA 7 ["a"]] none []).1.issues = ["a"] := by
  have h := smoothed_analysis_rounded_means [simplePA 7 ["a"]] none [] (by simp)
  rw [h.2.2.2.2.2.2.1]
  rfl

/-- Counterexample to C3 as stated: with history scores 7 and 8 the smoothed
score is `Math.round(7.5) = 8`, not the arithmetic mean 7.5. -/
theorem smoothed_score_is_rounded_not_mean :
    (smoothPostureAnalysis [simplePA 7 [], simplePA 8 []] none []).1.score = 8 ∧
    (([simplePA 7 [], simplePA 8 []].map PostureAnalysis.score).sum /
      (([simplePA 7 [], simplePA 8 []] : List PostureAnalysis).length : ℝ)) = 7.5 ∧
    (7.5 : ℝ) ≠ 8 := by
  refine ⟨?_, by norm_num [simplePA], by norm_num⟩
  show jsRound (((7:ℝ) + (8 + 0)) / 2) = 8
  unfold jsRound
  norm_num

/-- C4 (amended): the smoothing step clears the counter object exactly when
the raw mean score strictly exceeds 8.0 (at exactly 8.0 the counters are
kept); afterwards every issue has to re-accumulate 3 qualifying frames before
it can be shown again. -/
theorem counters_cleared_above_eight (hist : List PostureAnalysis)
    (cur : Option PostureAnalysis) (c : Counters) (hne : hist ≠ [])
    (h : 8.0 < (hist.map PostureAnalysis.score).sum / (hist.length : ℝ)) :
    (smoothPostureAnalysis hist cur c).2 = [] := by
  cases hist with
  | nil => exact absurd rfl hne
  | cons a rest =>
    simp only [smoothPostureAnalysis]
    rw [if_pos h]
    rfl

/-- Witness for the C4 theorem: a history with mean score 9 clears a nonzero
counter map. -/
theorem counters_cleared_above_eight_witness :
    (smoothPostureAnalysis [simplePA 9 []] none [(IssueKey.forward_head, 5)]).2 = [] := by
  exact counters_cleared_above_eight [simplePA 9 []] none [(IssueKey.forward_head, 5)]
    (by simp) (by norm_num [simplePA])

/-- Counterexample to C4 as stated: at a mean score of exactly 8.0 (";at
least 8.0" holds) the counter map is not cleared. -/
theorem counters_kept_at_exactly_eight :
    (8.0 : ℝ) ≤ (([simplePA 8 []].map PostureAnalysis.score).sum /
      (([simplePA 8 []] : List PostureAnalysis).length : ℝ)) ∧
    (smoothPostureAnalysis [simplePA 8 []] none [(IssueKey.forward_head, 2)]).2 =
      [(IssueKey.forward_head, 2)] := by
  constructor
  · norm_num [simplePA]
  · simp only [smoothPostureAnalysis]
    rw [if_neg (by norm_num [simplePA] : ¬(8.0:ℝ) <
      (([simplePA 8 []].map PostureAnalysis.score).sum /
        (([simplePA 8 []] : List PostureAnalysis).length : ℝ)))]
    rfl

/-- C7 (amended): the landmark smoother returns a complete frame for every
non-empty window — the single entry when the window has one entry, and
otherwise, per joint, the arithmetic mean of x, y, z over the window entries
whose visibility exceeds 0.1; when no entry passes that floor it falls back to
the first (oldest) entry of the window; on an empty window it fails (the
JavaScript throws inside `extractLandmarks([])`) instead of returning a
placeholder. -/
theorem smoothLandmarks_spec (hist : List PoseLandmarks) (hne : hist ≠ []) :
    (∃ out, smoothLandmarks hist = some out) ∧
    (∀ l, hist = [l] → smoothLandmarks hist = some l) ∧
    (2 ≤ hist.length →
      smoothLandmarks hist = some fun j => averageLandmark (hist.map fun l => l j)) ∧
    (∀ (l : Landmark) (ls : List Landmark),
      ((l :: ls).filter fun a => 1/10 < a.visibility) = [] →
        averageLandmark (l :: ls) = l) ∧
    (∀ (l : Landmark) (ls : List Landmark),
      ((l :: ls).filter fun a => 1/10 < a.visibility) ≠ [] →
        (averageLandmark (l :: ls)).x *
            (((l :: ls).filter fun a => 1/10 < a.visibility).length : ℚ) =
          (((l :: ls).filter fun a => 1/10 < a.visibility).map Landmark.x).sum ∧
        (averageLandmark (l :: ls)).y *
            (((l :: ls).filter fun a => 1/10 < a.visibility).length : ℚ) =
          (((l :: ls).filter fun a => 1/10 < a.visibility).map Landmark.y).sum ∧
        (averageLandmark (l :: ls)).z *
            (((l :: ls).filter fun a => 1/10 < a.visibility).length : ℚ) =
          (((l :: ls).filter fun a => 1/10 < a.visibility).map Landmark.z).sum) ∧
    smoothLandmarks [] = none := by
  refine ⟨?_, ?_, ?_, ?_, ?_, rfl⟩
  · cases hist with
    | nil => exact absurd rfl hne
    | cons a rest =>
      cases rest with
      | nil => exact ⟨a, rfl⟩
      | cons b rest2 => exact ⟨_, rfl⟩
  · intro l he
    rw [he]
    rfl
  · intro h2
    cases hist with
    | nil => exact absurd rfl hne
    | cons a rest =>
      cases rest with
      | nil => simp at h2
      | cons b rest2 => rfl
  · intro l ls hfe
    unfold averageLandmark
    dsimp only
    rw [hfe]
    rfl
  · intro l ls hfv
    have hlen : ((((l :: ls).filter fun a => 1/10 < a.visibility).length : ℚ)) ≠ 0 :=
      Nat.cast_ne_zero.mpr fun h0 => hfv (List.length_eq_zero.mp h0)
    unfold averageLandmark
    dsimp only
    rw [if_neg (by simpa [List.isEmpty_iff] using hfv)]
    exact ⟨div_mul_cancel₀ _ hlen, div_mul_cancel₀ _ hlen, div_mul_cancel₀ _ hlen⟩

/-- Witness for the C7 theorem: a one-entry window returns its entry. -/
theorem smoothLandmarks_spec_witness :
    smoothLandmarks [lmLowA] = some lmLowA := by
  exact (smoothLandmarks_spec [lmLowA] (by simp)).2.1 lmLowA rfl

/-- Counterexample to C7 as stated: an empty window yields no frame at all
(the code path throws), and when no window entry passes the visibility floor
the fallback is the oldest entry, not the most recent one. -/
theorem smoothLandmarks_empty_fails_and_fallback_is_oldest :
    smoothLandmarks [] = none ∧
    (smoothLandmarks [lmLowA, lmLowB]).map (fun f => f Joint.nose) =
      some (lmLowA Joint.nose) ∧
    lmLowA Joint.nose ≠ lmLowB Joint.nose := by
  refine ⟨rfl, ?_, ?_⟩
  · show some (averageLandmark ([lmLowA, lmLowB].map fun l => l Joint.nose)) =
      some (lmLowA Joint.nose)
    norm_num [averageLandmark, List.filter_cons, decide_eq_true_eq,
      lmLowA, lmLowB, constFrame]
  · norm_num [lmLowA, lmLowB, constFrame, Landmark.mk.injEq]

/-- C8: the loop publishes exactly when at least 2000 ms have passed since
`lastUpdateTime`, resetting it to `now` on publication; consequently along any
run the published instants are pairwise at least 2000 ms apart (at most one
publication per 2000 ms window, whatever the frame rate). -/
theorem emit_every_2000ms :
    (∀ lastUpdateTime now : ℤ,
      ((emitStep lastUpdateTime now).2 = true ↔ 2000 ≤ now - lastUpdateTime) ∧
      ((emitStep lastUpdateTime now).2 = true → (emitStep lastUpdateTime now).1 = now) ∧
      ((emitStep lastUpdateTime now).2 = false →
        (emitStep lastUpdateTime now).1 = lastUpdateTime)) ∧
    (∀ (lastUpdateTime : ℤ) (ts : List ℤ),
      List.Chain (fun a b => a + 2000 ≤ b) lastUpdateTime
        (emittedTimes lastUpdateTime ts)) := by
  constructor
  · intro last now
    unfold emitStep
    by_cases hc : 2000 ≤ now - last
    · rw [if_pos hc]
      simp [hc]
    · rw [if_neg hc]
      simp [hc]
  · intro last ts
    induction ts generalizing last with
    | nil => exact List.Chain.nil
    | cons t ts ih =>
      show List.Chain _ last (emittedTimes last (t :: ts))
      unfold emittedTimes emitStep
      dsimp only
      by_cases hc : 2000 ≤ t - last
      · rw [if_pos hc]
        show List.Chain _ last (t :: emittedTimes t ts)
        exact List.Chain.cons (by linarith) (ih t)
      · rw [if_neg hc]
        show List.Chain _ last (emittedTimes last ts)
        exact ih last

/-- C9 (amended): `stop()` nulls the pending callback handle (invoking the
cancel routine picked by the current visibility flag), clears the current
analysis and lowers the initialized flag, but leaves the rolling history
buffers (landmark window and per-frame analysis window), the consistency
counters and the last emit time untouched. -/
theorem stop_cancels_and_clears_analysis_only (s : EngineState) :
    (stop s).animationFrame = none ∧
    (stop s).currentAnalysis = none ∧
    (stop s).isInit = false ∧
    (stop s).postureHistory = s.postureHistory ∧
    (stop s).landmarkHistory = s.landmarkHistory ∧
    (stop s).issueConsistency = s.issueConsistency ∧
    (stop s).lastUpdateTime = s.lastUpdateTime ∧
    (stop s).isPageVisible = s.isPageVisible :=
  ⟨rfl, rfl, rfl, rfl, rfl, rfl, rfl, rfl⟩

/-- Counterexample to C9 as stated: stopping a running engine with non-empty
history buffers leaves both buffers non-empty (they are not cleared), even
though the pending callback and the current analysis are cleared. -/
theorem stop_does_not_clear_history_buffers :
    (stop runningEngine).animationFrame = none ∧
    (stop runningEngine).currentAnalysis = none ∧
    (stop runningEngine).postureHistory ≠ [] ∧
    (stop runningEngine).landmarkHistory ≠ [] ∧
    (stop runningEngine).issueConsistency ≠ [] := by
  refine ⟨rfl, rfl, ?_, ?_, ?_⟩ <;> simp [stop, runningEngine]

end

end PoseService
